import Mathlib

/-!
Verification of the german-holidays Telegram reminder bot.

The development shallowly embeds the logic of `src/index.ts` (main version) and of
the two earlier variants of the same file.  Conventions of the embedding:

* A calendar date served by the holiday API is a date-only string "YYYY-MM-DD";
  `new Date(s)` parses it to midnight UTC.  We represent such a date by its epoch
  day number (`Holiday.date : Nat`); its parsed millisecond value is
  `date * msPerDay`.  A `Date` value ("now") is represented by its epoch
  millisecond value together with the wall-clock year (`Time`), the only two
  observations the source makes of it (`getTime`/comparisons/`toISOString` day,
  and `getFullYear`).
* The module-level mutable variables `holidaysCache`/`lastFetchYear` become an
  explicit `CacheState` threaded through the functions that read and write them.
* The outcome of the network fetch (`fetch` + `res.json()`, which either yields a
  decoded list or throws) is an explicit `Except` argument.
* JS `Array.prototype.sort` is specified to be a stable sort; we model it with
  `List.insertionSort`, which is stable.
* JS `Set<number>` preserves insertion order and holds no duplicates; we model it
  as a `List Int` with guarded append for `add` and `List.erase` for `delete`.
* JS `%` agrees with `Nat.mod` on non-negative operands; the pluralization claims
  quantify over non-negative day counts only, so `formatDays` is embedded on `Nat`.
-/

namespace GermanHolidays

/-- `1000 * 60 * 60 * 24`, the divisor in `getDaysUntil` and the length of a day
in milliseconds. -/
def msPerDay : Nat := 1000 * 60 * 60 * 24

/-- A holiday record from the Nager.Date API (`interface Holiday` in
`src/index.ts`).  `date` is the calendar date as an epoch day number (see module
docstring); fields not inspected by any claim (`countryCode`, `fixed`,
`launchYear`, `types`) are omitted. -/
structure Holiday where
  date : Nat
  localName : String
  name : String
  global : Bool
  counties : Option (List String)
deriving DecidableEq, Repr

/-- The millisecond value `new Date(holiday.date).getTime()` of a record's
date-only string. -/
def dateMs (h : Holiday) : Nat := h.date * msPerDay

/-- `const REGION_CODE = 'DE-BW'` (Baden-Württemberg). -/
def REGION_CODE : String := "DE-BW"

/-- `fetchHolidays` (src/index.ts lines 35-47): the `fetch` + decode either
yields a list or fails (thrown exception or non-ok status, both routed to the
`catch`); the `catch` clause logs and returns `[]`.  The fetch outcome is the
explicit argument. -/
def fetchHolidays (outcome : Except String (List Holiday)) : List Holiday :=
  match outcome with
  | Except.ok hs => hs
  | Except.error _ => []

/-- The filter predicate of `getHolidaysForRegion` (src/index.ts lines 54-57):
`holiday.global || (holiday.counties && holiday.counties.includes(REGION_CODE))`.
A `null` counties list is falsy in JS, hence `false` here. -/
def holidayAppliesToRegion (h : Holiday) : Bool :=
  h.global ||
    (match h.counties with
     | some cs => cs.contains REGION_CODE
     | none => false)

/-- `getHolidaysForRegion` (src/index.ts lines 50-58). -/
def getHolidaysForRegion (outcome : Except String (List Holiday)) : List Holiday :=
  (fetchHolidays outcome).filter holidayAppliesToRegion

/-- The observations the source makes of `new Date()`: the epoch millisecond
value and the wall-clock year. -/
structure Time where
  ms : Nat
  year : Nat
deriving DecidableEq, Repr

/-- The module-level mutable cache, `let holidaysCache: Holiday[] = []` and
`let lastFetchYear: number = 0` (src/index.ts lines 31-32). -/
structure CacheState where
  holidaysCache : List Holiday
  lastFetchYear : Nat
deriving DecidableEq, Repr

/-- The cache at process start. -/
def initialCacheState : CacheState := { holidaysCache := [], lastFetchYear := 0 }

/-- The sort order used by `.sort((a, b) => new Date(a.date).getTime() - new
Date(b.date).getTime())`: ascending parsed-date milliseconds. -/
def byDateLE (a b : Holiday) : Prop := dateMs a ≤ dateMs b

instance : DecidableRel byDateLE := fun a b => Nat.decLe (dateMs a) (dateMs b)

instance : IsTotal Holiday byDateLE := ⟨fun a b => Nat.le_total (dateMs a) (dateMs b)⟩

instance : IsTrans Holiday byDateLE := ⟨fun _ _ _ hab hbc => Nat.le_trans hab hbc⟩

/-- `getUpcomingHolidays` (src/index.ts lines 61-80).  `outcomes y` is the fetch
outcome for year `y`; the function refreshes the shared cache when the cached
year differs from the wall-clock year or the cache is empty, then filters the
cache to strictly-future records, sorts ascending by date (stable sort) and
takes the first `count`.  Returns the result together with the new cache
state. -/
def getUpcomingHolidays (outcomes : Nat → Except String (List Holiday)) (t : Time)
    (count : Nat) (s : CacheState) : List Holiday × CacheState :=
  let s' :=
    if s.lastFetchYear ≠ t.year ∨ s.holidaysCache.length = 0 then
      { holidaysCache :=
          getHolidaysForRegion (outcomes t.year) ++
            getHolidaysForRegion (outcomes (t.year + 1)),
        lastFetchYear := t.year }
    else s
  let upcoming :=
    ((s'.holidaysCache.filter fun h => decide (t.ms < dateMs h)).insertionSort
        byDateLE).take count
  (upcoming, s')

/-- `getDaysUntil` (src/index.ts lines 83-86):
`Math.ceil((date.getTime() - now.getTime()) / (1000 * 60 * 60 * 24))`, with the
division taken exactly (the spec's "exact millisecond arithmetic"). -/
def getDaysUntil (nowMs targetMs : Int) : Int :=
  ⌈((targetMs : ℚ) - (nowMs : ℚ)) / (1000 * 60 * 60 * 24 : ℚ)⌉

/-- `formatDays` (src/index.ts lines 89-97).  `[2, 3, 4].includes(days % 10)`
and `[12, 13, 14].includes(days % 100)` are written as the corresponding
disjunctions. -/
def formatDays (days : Nat) : String :=
  if days = 1 ∨ (days % 10 = 1 ∧ days % 100 ≠ 11) then
    toString days ++ " день"
  else if (days % 10 = 2 ∨ days % 10 = 3 ∨ days % 10 = 4) ∧
      ¬(days % 100 = 12 ∨ days % 100 = 13 ∨ days % 100 = 14) then
    toString days ++ " дня"
  else
    toString days ++ " дней"

/-- `isTodayHoliday` (src/index.ts lines 107-120).  On a stale or empty cache it
refetches the current year only and overwrites the shared cache with it.  The
check `holiday.date === today` compares the record's date string with
`now.toISOString().split('T')[0]`, i.e. the record's epoch day with `now`'s UTC
epoch day. -/
def isTodayHoliday (outcomes : Nat → Except String (List Holiday)) (t : Time)
    (s : CacheState) : Bool × CacheState :=
  let s' :=
    if s.lastFetchYear ≠ t.year ∨ s.holidaysCache.length = 0 then
      { holidaysCache := getHolidaysForRegion (outcomes t.year),
        lastFetchYear := t.year }
    else s
  (s'.holidaysCache.any fun h => h.date == t.ms / msPerDay, s')

/-- The three Russian plural categories of the day word. -/
inductive PluralForm
  | one
  | few
  | many
deriving DecidableEq, Repr

/-- The unit word each plural category selects in the source's messages. -/
def pluralWord : PluralForm → String
  | PluralForm.one => "день"
  | PluralForm.few => "дня"
  | PluralForm.many => "дней"

/-- Modelled from the spec (§4.3): the standard Slavic pluralization rule —
one-form when `n % 10 = 1` and `n % 100 ≠ 11`; few-form when `n % 10 ∈ {2,3,4}`
and `n % 100 ∉ {12,13,14}`; otherwise many-form. -/
def pluralRule (n : Nat) : PluralForm :=
  if n % 10 = 1 ∧ n % 100 ≠ 11 then PluralForm.one
  else if (n % 10 = 2 ∨ n % 10 = 3 ∨ n % 10 = 4) ∧
      ¬(n % 100 = 12 ∨ n % 100 = 13 ∨ n % 100 = 14) then PluralForm.few
  else PluralForm.many

/-- The unit-word selection inlined in `getNextHoliday`
(src/unnamed/part_000 line 39):
`daysUntil === 1 ? 'день' : daysUntil < 5 ? 'дня' : 'дней'`. -/
def getNextHolidayDayWord (daysUntil : Nat) : String :=
  if daysUntil = 1 then "день" else if daysUntil < 5 then "дня" else "дней"

/-- `activeChatIds.add(id)`: JS `Set.add` keeps the set unchanged when the id is
present, otherwise appends it (insertion order). -/
def setAdd (s : List Int) (chatId : Int) : List Int :=
  if chatId ∈ s then s else s ++ [chatId]

/-- `activeChatIds.delete(id)`: JS `Set.delete` removes the entry for the id if
present.  Under the no-duplicates invariant `List.erase` is exactly that. -/
def setDelete (s : List Int) (chatId : Int) : List Int :=
  s.erase chatId

/-- The operations the program ever performs on `activeChatIds`. -/
inductive RegistryOp
  | add (chatId : Int)
  | remove (chatId : Int)

/-- One registry operation applied to a registry state. -/
def applyRegistryOp (s : List Int) : RegistryOp → List Int
  | RegistryOp.add c => setAdd s c
  | RegistryOp.remove c => setDelete s c

/-- A registry state reached from the empty initial registry
(`new Set<number>()`) by a sequence of operations. -/
def runRegistryOps (ops : List RegistryOp) : List Int :=
  ops.foldl applyRegistryOp []

/-- JS `String.prototype.includes`: substring containment, on character lists. -/
def strIncludes (sub s : List Char) : Bool :=
  s.tails.any fun t => sub.isPrefixOf t

/-- The substring the delivery-failure handlers test for:
`err.message.includes('blocked')`. -/
def blockedIndicator : List Char := "blocked".toList

/-- The `.catch` handler of a failed send (src/index.ts lines 168-173 and
src/unnamed/part_000 lines 71-77): delete the chat id from the registry exactly
when the error text contains the blocked indicator. -/
def handleDeliveryFailure (s : List Int) (chatId : Int) (errMessage : List Char) :
    List Int :=
  if strIncludes blockedIndicator errMessage then setDelete s chatId else s

/-- Fixture (spec §8): the 2025 holiday, 2025-12-25 "Christmas".
Epoch day 20447 is 2025-12-25. -/
def christmas : Holiday :=
  { date := 20447, localName := "Erster Weihnachtstag", name := "Christmas",
    global := true, counties := none }

/-- Fixture (spec §8): the 2026 holiday, 2026-01-01 "New Year".
Epoch day 20454 is 2026-01-01. -/
def newYear : Holiday :=
  { date := 20454, localName := "Neujahr", name := "New Year",
    global := true, counties := none }

/-- Fixture fetch outcomes: year 2025 serves Christmas, year 2026 New Year. -/
def fixtureOutcomes : Nat → Except String (List Holiday) := fun y =>
  if y = 2025 then Except.ok [christmas]
  else if y = 2026 then Except.ok [newYear]
  else Except.ok []

/-- Fixture "now": midnight UTC 2025-12-20 (epoch day 20442), year 2025. -/
def dec20 : Time := { ms := 20442 * msPerDay, year := 2025 }

/-- A "now" on the morning of 2025-12-25 (epoch day 20447, 10:00 UTC). -/
def xmasMorning : Time := { ms := 20447 * msPerDay + 10 * 60 * 60 * 1000, year := 2025 }

/-- The two operations of the program that touch the shared holiday cache. -/
inductive CacheOp
  | selector (t : Time) (count : Nat)
  | todayCheck (t : Time)

/-- The cache state left behind by one cache-touching operation. -/
def applyCacheOp (outcomes : Nat → Except String (List Holiday)) (s : CacheState) :
    CacheOp → CacheState
  | CacheOp.selector t count => (getUpcomingHolidays outcomes t count s).2
  | CacheOp.todayCheck t => (isTodayHoliday outcomes t s).2

/-- The cache state reached from process start by a sequence of
`getUpcomingHolidays` / `isTodayHoliday` invocations. -/
def runCacheOps (outcomes : Nat → Except String (List Holiday))
    (ops : List CacheOp) : CacheState :=
  ops.foldl (applyCacheOp outcomes) initialCacheState

/-- The shapes the shared cache can have: untouched, filled by
`isTodayHoliday` (the fetch year's records only), or filled by
`getUpcomingHolidays` (the fetch year's records followed by the next
year's). -/
def CacheConsistent (outcomes : Nat → Except String (List Holiday))
    (s : CacheState) : Prop :=
  s = initialCacheState ∨
    s.holidaysCache = getHolidaysForRegion (outcomes s.lastFetchYear) ∨
    s.holidaysCache =
      getHolidaysForRegion (outcomes s.lastFetchYear) ++
        getHolidaysForRegion (outcomes (s.lastFetchYear + 1))

/-- The calendar year containing an epoch day, on the fixture's range: days up
to 2025-12-31 (epoch day 20453) lie in 2025, later days in 2026. -/
def fixtureYearOfDay (d : Nat) : Nat := if d ≤ 20453 then 2025 else 2026

/-! ## Helper lemmas -/

/-- The region filter in propositional form. -/
lemma holidayAppliesToRegion_iff (h : Holiday) :
    holidayAppliesToRegion h = true ↔
      h.global = true ∨ ∃ cs, h.counties = some cs ∧ REGION_CODE ∈ cs := by
  unfold holidayAppliesToRegion
  cases hc : h.counties with
  | none => simp [hc]
  | some cs => simp [hc, List.contains, List.elem_iff]

/-- Any record the selector returns is strictly in the future. -/
lemma mem_upcoming_future (outcomes : Nat → Except String (List Holiday)) (t : Time)
    (count : Nat) (s : CacheState) (h : Holiday)
    (hmem : h ∈ (getUpcomingHolidays outcomes t count s).1) : t.ms < dateMs h := by
  simp only [getUpcomingHolidays] at hmem
  have h1 := List.mem_of_mem_take hmem
  rw [List.mem_insertionSort] at h1
  simpa using (List.mem_filter.mp h1).2

/-- Evaluation of the selector on the fixture from a fresh cache. -/
lemma fixture_selector_eval :
    getUpcomingHolidays fixtureOutcomes dec20 2 initialCacheState =
      ([christmas, newYear],
        { holidaysCache := [christmas, newYear], lastFetchYear := 2025 }) := by
  decide

/-- Evaluation of `isTodayHoliday` on the fixture from a fresh cache: it leaves
behind a cache holding only the current-year records. -/
lemma fixture_isToday_eval :
    isTodayHoliday fixtureOutcomes dec20 initialCacheState =
      (false, { holidaysCache := [christmas], lastFetchYear := 2025 }) := by
  decide

/-- Each cache-touching operation preserves cache consistency. -/
lemma applyCacheOp_consistent (outcomes : Nat → Except String (List Holiday))
    (s : CacheState) (op : CacheOp) (hs : CacheConsistent outcomes s) :
    CacheConsistent outcomes (applyCacheOp outcomes s op) := by
  cases op with
  | selector t count =>
    simp only [applyCacheOp, getUpcomingHolidays]
    split_ifs with hcond
    · exact Or.inr (Or.inr rfl)
    · exact hs
  | todayCheck t =>
    simp only [applyCacheOp, isTodayHoliday]
    split_ifs with hcond
    · exact Or.inr (Or.inl rfl)
    · exact hs

/-- Every cache state the program can reach is consistent. -/
lemma runCacheOps_consistent (outcomes : Nat → Except String (List Holiday))
    (ops : List CacheOp) : CacheConsistent outcomes (runCacheOps outcomes ops) := by
  have key : ∀ (l : List CacheOp) (s : CacheState), CacheConsistent outcomes s →
      CacheConsistent outcomes (l.foldl (applyCacheOp outcomes) s) := by
    intro l
    induction l with
    | nil => intro s hs; exact hs
    | cons op rest ih =>
      intro s hs
      exact ih _ (applyCacheOp_consistent outcomes s op hs)
  exact key ops initialCacheState (Or.inl rfl)

/-- The today-check iff, for any consistent cache state: provided records
served for year `y` are dated in year `y` and `now`'s calendar date lies in the
wall-clock year, cached next-year records can never match today, so warm and
fresh caches agree with the current-year record set. -/
lemma isTodayHoliday_iff_of_consistent (outcomes : Nat → Except String (List Holiday))
    (yearOfDay : Nat → Nat)
    (hsrc : ∀ y : Nat, ∀ h ∈ getHolidaysForRegion (outcomes y), yearOfDay h.date = y)
    (t : Time) (ht : yearOfDay (t.ms / msPerDay) = t.year) (s : CacheState)
    (hcons : CacheConsistent outcomes s) :
    (isTodayHoliday outcomes t s).1 = true ↔
      ∃ h ∈ getHolidaysForRegion (outcomes t.year), h.date = t.ms / msPerDay := by
  simp only [isTodayHoliday]
  split_ifs with hstale
  · simp [List.any_eq_true, beq_iff_eq]
  · push_neg at hstale
    obtain ⟨hyear, hlen⟩ := hstale
    rcases hcons with hinit | hcur | hboth
    · rw [hinit] at hlen
      simp [initialCacheState] at hlen
    · rw [hcur, hyear]
      simp [List.any_eq_true, beq_iff_eq]
    · rw [hboth, hyear]
      have hnone : (getHolidaysForRegion (outcomes (t.year + 1))).any
          (fun h => h.date == t.ms / msPerDay) = false := by
        rw [List.any_eq_false]
        intro h hmem hbeq
        have hy := hsrc (t.year + 1) h hmem
        rw [beq_iff_eq] at hbeq
        rw [hbeq, ht] at hy
        omega
      rw [List.any_append, hnone, Bool.or_false]
      simp [List.any_eq_true, beq_iff_eq]

/-- The fixture source is year-consistent: every record served for a year is
dated within that year. -/
lemma fixture_year_consistent :
    ∀ y : Nat, ∀ h ∈ getHolidaysForRegion (fixtureOutcomes y),
      fixtureYearOfDay h.date = y := by
  intro y h hmem
  unfold fixtureOutcomes at hmem
  split_ifs at hmem with h25 h26
  · rw [show getHolidaysForRegion (Except.ok [christmas]) = [christmas] from by decide,
      List.mem_singleton] at hmem
    subst hmem
    subst h25
    decide
  · rw [show getHolidaysForRegion (Except.ok [newYear]) = [newYear] from by decide,
      List.mem_singleton] at hmem
    subst hmem
    subst h26
    decide
  · rw [show getHolidaysForRegion (Except.ok ([] : List Holiday)) = [] from by decide]
      at hmem
    exact absurd hmem (List.not_mem_nil h)

/-! ## Claim theorems -/

/-- C2: for every non-negative `n`, `formatDays n` selects the unit word by the
Slavic mod-10/mod-100 pluralization rule (one-form iff `n % 10 = 1` and
`n % 100 ≠ 11`; few-form iff `n % 10 ∈ {2,3,4}` and `n % 100 ∉ {12,13,14}`;
many-form otherwise); in particular 1 gets the one-form, 2, 3, 4 the few-form,
0, 11, 12 the many-form, and 11 and 21 receive different forms. -/
theorem formatDays_follows_pluralRule :
    (∀ n : Nat, formatDays n = toString n ++ (" " ++ pluralWord (pluralRule n))) ∧
    formatDays 1 = "1 день" ∧ formatDays 2 = "2 дня" ∧ formatDays 3 = "3 дня" ∧
    formatDays 4 = "4 дня" ∧ formatDays 0 = "0 дней" ∧ formatDays 11 = "11 дней" ∧
    formatDays 12 = "12 дней" ∧ pluralRule 11 ≠ pluralRule 21 := by
  refine ⟨?_, by decide, by decide, by decide, by decide, by decide, by decide,
    by decide, by decide⟩
  intro n
  unfold formatDays pluralRule
  split_ifs <;> first | rfl | omega

/-- C4: a delivery failure removes the failing subscriber from the registry if
and only if the error text contains the blocked indicator, and touches no other
entry; a failure without the indicator removes nobody. -/
theorem handleDeliveryFailure_removes_iff_blocked (s : List Int) (chatId : Int)
    (err : List Char) (hnd : s.Nodup) :
    (strIncludes blockedIndicator err = false → handleDeliveryFailure s chatId err = s) ∧
    (strIncludes blockedIndicator err = true →
      ∀ x : Int, x ∈ handleDeliveryFailure s chatId err ↔ x ∈ s ∧ x ≠ chatId) := by
  constructor
  · intro hfalse
    simp [handleDeliveryFailure, hfalse]
  · intro htrue x
    simp only [handleDeliveryFailure, htrue, if_true, setDelete]
    rw [hnd.mem_erase_iff]
    exact and_comm

/-- Witness for C4: a registry of three subscribers, one failure without the
indicator (removes nobody) and one with it (membership of an unrelated
subscriber is untouched). -/
theorem handleDeliveryFailure_witness :
    handleDeliveryFailure [1, 2, 3] 2 "network timeout".toList = [1, 2, 3] ∧
    (3 ∈ handleDeliveryFailure [1, 2, 3] 2 "bot was blocked by the user".toList ↔
      3 ∈ ([1, 2, 3] : List Int) ∧ (3 : Int) ≠ 2) := by
  constructor
  · exact (handleDeliveryFailure_removes_iff_blocked [1, 2, 3] 2 _ (by decide)).1
      (by decide)
  · exact (handleDeliveryFailure_removes_iff_blocked [1, 2, 3] 2 _ (by decide)).2
      (by decide) 3

/-- C5: every registry state reachable from the empty registry by the program's
add/remove operations is duplicate-free, and adding an already-present identity
is a no-op: two consecutive adds of the same id equal a single add. -/
theorem registry_nodup_and_add_idempotent :
    (∀ ops : List RegistryOp, (runRegistryOps ops).Nodup) ∧
    (∀ (s : List Int) (c : Int), setAdd (setAdd s c) c = setAdd s c) := by
  constructor
  · have key : ∀ (ops : List RegistryOp) (s : List Int), s.Nodup →
        (ops.foldl applyRegistryOp s).Nodup := by
      intro ops
      induction ops with
      | nil => intro s hs; simpa using hs
      | cons op rest ih =>
        intro s hs
        refine ih _ ?_
        cases op with
        | add c =>
          simp only [applyRegistryOp, setAdd]
          split_ifs with hmem
          · exact hs
          · exact hs.append (List.nodup_singleton c) (List.disjoint_singleton.2 hmem)
        | remove c => exact hs.erase c
    intro ops
    exact key ops [] List.nodup_nil
  · intro s c
    have hc : c ∈ setAdd s c := by
      unfold setAdd
      split_ifs with hmem
      · exact hmem
      · exact List.mem_append.mpr (Or.inr (List.mem_singleton_self c))
    show (if c ∈ setAdd s c then setAdd s c else setAdd s c ++ [c]) = setAdd s c
    exact if_pos hc

/-- C6: `getHolidaysForRegion` never raises (it is total on every fetch
outcome): on a failed fetch it returns `[]`, and on a successful fetch it
returns exactly the fetched records that are region-applicable, i.e. marked
global or listing the configured subregion code in their counties list. -/
theorem getHolidaysForRegion_fails_soft_and_filters :
    (∀ e : String, getHolidaysForRegion (Except.error e) = []) ∧
    (∀ (hs : List Holiday) (h : Holiday),
      h ∈ getHolidaysForRegion (Except.ok hs) ↔
        h ∈ hs ∧ (h.global = true ∨ ∃ cs, h.counties = some cs ∧ REGION_CODE ∈ cs)) := by
  constructor
  · intro e; rfl
  · intro hs h
    simp only [getHolidaysForRegion, fetchHolidays, List.mem_filter,
      holidayAppliesToRegion_iff]

/-- C9 counterexample: the broadcast unit word for 21 days is the many-form
word, not the one-form the mod-10/mod-100 rule selects. -/
theorem getNextHolidayDayWord_21_breaks_rule :
    getNextHolidayDayWord 21 = "дней" ∧ pluralRule 21 = PluralForm.one ∧
    pluralWord (pluralRule 21) = "день" ∧
    getNextHolidayDayWord 21 ≠ pluralWord (pluralRule 21) := by
  decide

/-- C9 amended: the broadcast unit word follows the simpler rule `n = 1` →
one-form, `n < 5` → few-form, otherwise many-form; it agrees with the
mod-10/mod-100 rule of `formatDays` exactly for `n ∈ {1,2,3,4}` and for those
`n ≥ 5` whose last digit is not 1, 2, 3, 4 or whose last two digits are 11-14
(so 11 still gets the many-form, but 21 and 22 get the many-form instead of the
one- and few-forms). -/
theorem getNextHolidayDayWord_agreement :
    ∀ n : Nat, getNextHolidayDayWord n = pluralWord (pluralRule n) ↔
      (n = 1 ∨ n = 2 ∨ n = 3 ∨ n = 4 ∨
        (5 ≤ n ∧ (¬(n % 10 = 1 ∨ n % 10 = 2 ∨ n % 10 = 3 ∨ n % 10 = 4) ∨
          (11 ≤ n % 100 ∧ n % 100 ≤ 14)))) := by
  intro n
  unfold getNextHolidayDayWord pluralRule
  split_ifs <;>
    first
      | exact iff_of_true rfl (by omega)
      | exact iff_of_false (by decide) (by omega)

/-- C1: for every per-year holiday list supplied by the source, every current
time, every requested count and every prior cache state, the selector returns
only records whose date is strictly greater than `now`, sorted ascending by
date, and at most `count` of them. -/
theorem getUpcomingHolidays_future_sorted_bounded
    (outcomes : Nat → Except String (List Holiday)) (t : Time) (count : Nat)
    (s : CacheState) :
    (∀ h ∈ (getUpcomingHolidays outcomes t count s).1, t.ms < dateMs h) ∧
    (getUpcomingHolidays outcomes t count s).1.Sorted byDateLE ∧
    (getUpcomingHolidays outcomes t count s).1.length ≤ count := by
  refine ⟨fun h hmem => mem_upcoming_future outcomes t count s h hmem, ?_, ?_⟩
  · simp only [getUpcomingHolidays]
    exact (List.sorted_insertionSort byDateLE _).take
  · simp only [getUpcomingHolidays]
    exact List.length_take_le count _

/-- Witness for C1 on the fixture source at 2025-12-20 with count 2. -/
theorem getUpcomingHolidays_future_sorted_bounded_witness :
    (∀ h ∈ (getUpcomingHolidays fixtureOutcomes dec20 2 initialCacheState).1,
      dec20.ms < dateMs h) ∧
    (getUpcomingHolidays fixtureOutcomes dec20 2 initialCacheState).1.Sorted byDateLE ∧
    (getUpcomingHolidays fixtureOutcomes dec20 2 initialCacheState).1.length ≤ 2 :=
  getUpcomingHolidays_future_sorted_bounded fixtureOutcomes dec20 2 initialCacheState

/-- C3 (code bug): from a fresh cache the selector's candidate set does contain
both years — on the fixture it returns Christmas and New Year — but after
`isTodayHoliday` has refreshed a stale cache, the shared cache holds only the
current-year records, is non-empty and carries the current year, so a selector
invocation in the same year skips its refetch: its candidate set is missing the
region-applicable, strictly-future next-year record, and it returns
`[christmas]` where the claimed candidate set would give `[christmas, newYear]`. -/
theorem selector_candidate_set_clobbered_by_isTodayHoliday :
    (getUpcomingHolidays fixtureOutcomes dec20 2 initialCacheState).1 =
      [christmas, newYear] ∧
    (getUpcomingHolidays fixtureOutcomes dec20 2
        (isTodayHoliday fixtureOutcomes dec20 initialCacheState).2).1 = [christmas] ∧
    newYear ∈ getHolidaysForRegion (fixtureOutcomes (dec20.year + 1)) ∧
    dec20.ms < dateMs newYear := by
  decide

/-- C7: for every cache state the program can reach — the fresh initial cache
as well as warm caches left behind by earlier `getUpcomingHolidays` or
`isTodayHoliday` invocations — `isTodayHoliday` returns true iff some
region-applicable record of the current year has a date equal to `now`'s
calendar date.  The two year-consistency hypotheses say the source's data is
well-formed: records served for year `y` are dated within year `y`, and `now`'s
calendar date lies in `now`'s wall-clock year. -/
theorem isTodayHoliday_iff_matching_record
    (outcomes : Nat → Except String (List Holiday)) (yearOfDay : Nat → Nat)
    (hsrc : ∀ y : Nat, ∀ h ∈ getHolidaysForRegion (outcomes y), yearOfDay h.date = y)
    (t : Time) (ht : yearOfDay (t.ms / msPerDay) = t.year) (ops : List CacheOp) :
    (isTodayHoliday outcomes t (runCacheOps outcomes ops)).1 = true ↔
      ∃ h ∈ getHolidaysForRegion (outcomes t.year), h.date = t.ms / msPerDay :=
  isTodayHoliday_iff_of_consistent outcomes yearOfDay hsrc t ht
    (runCacheOps outcomes ops) (runCacheOps_consistent outcomes ops)

/-- Witness for C7 on the fixture: with the cache warmed by a prior selector
call (the program's real call site), a `now` on Christmas morning yields true
and 2025-12-20 yields false; from the fresh initial cache 2025-12-20 also
yields false. -/
theorem isTodayHoliday_iff_matching_record_witness :
    (isTodayHoliday fixtureOutcomes xmasMorning
        (runCacheOps fixtureOutcomes [CacheOp.selector xmasMorning 2])).1 = true ∧
    (isTodayHoliday fixtureOutcomes dec20
        (runCacheOps fixtureOutcomes [CacheOp.selector dec20 2])).1 = false ∧
    (isTodayHoliday fixtureOutcomes dec20 (runCacheOps fixtureOutcomes [])).1 = false := by
  have hno : ¬∃ h ∈ getHolidaysForRegion (fixtureOutcomes dec20.year),
      h.date = dec20.ms / msPerDay := by decide
  refine ⟨?_, ?_, ?_⟩
  · exact (isTodayHoliday_iff_matching_record fixtureOutcomes fixtureYearOfDay
      fixture_year_consistent xmasMorning (by decide)
      [CacheOp.selector xmasMorning 2]).mpr ⟨christmas, by decide, by decide⟩
  · cases hb : (isTodayHoliday fixtureOutcomes dec20
        (runCacheOps fixtureOutcomes [CacheOp.selector dec20 2])).1 with
    | false => rfl
    | true =>
      exact absurd ((isTodayHoliday_iff_matching_record fixtureOutcomes
        fixtureYearOfDay fixture_year_consistent dec20 (by decide)
        [CacheOp.selector dec20 2]).mp hb) hno
  · cases hb : (isTodayHoliday fixtureOutcomes dec20
        (runCacheOps fixtureOutcomes [])).1 with
    | false => rfl
    | true =>
      exact absurd ((isTodayHoliday_iff_matching_record fixtureOutcomes
        fixtureYearOfDay fixture_year_consistent dec20 (by decide) []).mp hb) hno

/-- C8: `getDaysUntil` computes the exact ceiling of the millisecond difference
divided by one day — characterized as the unique integer `c` with
`msPerDay * (c - 1) < target - now ≤ msPerDay * c` — and on the fixture source
at now = 2025-12-20 the selector returns Christmas then New Year, whose
`daysUntil` values are 5 and 12. -/
theorem getDaysUntil_ceiling_and_fixture :
    (∀ nowMs targetMs : Int,
      (msPerDay : Int) * (getDaysUntil nowMs targetMs - 1) < targetMs - nowMs ∧
        targetMs - nowMs ≤ (msPerDay : Int) * getDaysUntil nowMs targetMs) ∧
    (getUpcomingHolidays fixtureOutcomes dec20 2 initialCacheState).1 =
      [christmas, newYear] ∧
    getDaysUntil (dec20.ms : Int) (dateMs christmas : Int) = 5 ∧
    getDaysUntil (dec20.ms : Int) (dateMs newYear : Int) = 12 := by
  have hD : (0 : ℚ) < (1000 * 60 * 60 * 24 : ℚ) := by norm_num
  refine ⟨fun nowMs targetMs => ⟨?_, ?_⟩, ?_, ?_, ?_⟩
  · have h1 : ((getDaysUntil nowMs targetMs : Int) : ℚ) - 1 <
        ((targetMs : ℚ) - (nowMs : ℚ)) / (1000 * 60 * 60 * 24 : ℚ) := by
      have hc := Int.ceil_lt_add_one
        (((targetMs : ℚ) - (nowMs : ℚ)) / (1000 * 60 * 60 * 24 : ℚ))
      rw [getDaysUntil]
      push_cast at hc
      linarith
    have h2 := (lt_div_iff₀ hD).mp h1
    have h3 : ((msPerDay : Int) * (getDaysUntil nowMs targetMs - 1) : ℚ) <
        ((targetMs - nowMs : Int) : ℚ) := by
      push_cast
      norm_num [msPerDay]
      linarith
    exact_mod_cast h3
  · have h1 : ((targetMs : ℚ) - (nowMs : ℚ)) / (1000 * 60 * 60 * 24 : ℚ) ≤
        ((getDaysUntil nowMs targetMs : Int) : ℚ) := by
      rw [getDaysUntil]
      exact Int.le_ceil _
    have h2 := (div_le_iff₀ hD).mp h1
    have h3 : ((targetMs - nowMs : Int) : ℚ) ≤
        ((msPerDay : Int) * getDaysUntil nowMs targetMs : ℚ) := by
      push_cast
      norm_num [msPerDay]
      linarith
    exact_mod_cast h3
  · rw [fixture_selector_eval]
  · rw [getDaysUntil]
    norm_num [dec20, dateMs, christmas, msPerDay]
  · rw [getDaysUntil]
    norm_num [dec20, dateMs, newYear, msPerDay]

/-- C10: every holiday the selector returns has `getDaysUntil` at least 1 at
the same `now`: the strictly-future filter makes the millisecond difference
positive, and the ceiling of a positive quantity is at least 1. -/
theorem selector_daysUntil_at_least_one
    (outcomes : Nat → Except String (List Holiday)) (t : Time) (count : Nat)
    (s : CacheState) (h : Holiday)
    (hmem : h ∈ (getUpcomingHolidays outcomes t count s).1) :
    1 ≤ getDaysUntil (t.ms : Int) (dateMs h : Int) := by
  have hfut := mem_upcoming_future outcomes t count s h hmem
  have hx : (0 : ℚ) < (((dateMs h : Int) : ℚ) - ((t.ms : Int) : ℚ)) /
      (1000 * 60 * 60 * 24 : ℚ) := by
    apply div_pos
    · have hlt : ((t.ms : Nat) : ℚ) < ((dateMs h : Nat) : ℚ) := by exact_mod_cast hfut
      push_cast
      push_cast at hlt
      linarith
    · norm_num
  have hpos : (0 : Int) < getDaysUntil (t.ms : Int) (dateMs h : Int) := by
    rw [getDaysUntil]
    exact Int.lt_ceil.mpr (by exact_mod_cast hx)
  omega

/-- Witness for C10: Christmas, returned by the selector on the fixture, has a
positive day count at 2025-12-20. -/
theorem selector_daysUntil_at_least_one_witness :
    1 ≤ getDaysUntil (dec20.ms : Int) (dateMs christmas : Int) :=
  selector_daysUntil_at_least_one fixtureOutcomes dec20 2 initialCacheState christmas
    (by rw [fixture_selector_eval]; decide)

end GermanHolidays
